import Mathlib

/-!
Verification of the gas-accounting call-stack profiler
(`src/language/move-vm/runtime/src/tracer.rs` and
`src/language/move-vm/runtime/src/gas_layer.rs`) against its
natural-language specification.

The Rust code is shallowly embedded: `GasCarrier` (= `u64`) values are
natural numbers with explicit wrap-around at `2 ^ 64` where the code's
unsigned subtraction can underflow, stateful methods become functions on
explicit state records, and operations that can panic return `Option`
(`none` models the panic).
-/

/-- Wrapping unsigned 64-bit subtraction: the release-mode semantics of the
`u64` subtraction `l - remaining_gas` used (unguarded) by both
`gas_used_since_last_event` functions. For `a b < 2 ^ 64` this is the value
of the Rust expression `a - b` on `u64`. -/
def sub64 (a b : Nat) : Nat := (a + (2 ^ 64 - b % 2 ^ 64)) % 2 ^ 64

/-- Modelled from the spec: the call identity supplied by the loader
(`MoveFunction` in `loader.rs`, outside the provided sources) — a defining-module
address, a module name (possibly empty) and a function name (spec section 3,
"CallFrame"). -/
structure MoveFunction where
  address : String
  module_name : String
  function_name : String
deriving DecidableEq, Repr

/-- Modelled from the spec: `MoveFunction::pretty_string` lives in the loader,
outside the provided sources. Spec section 3 gives the derived display form:
`address::module::function` when the module name is non-empty, else just the
function name. -/
def MoveFunction.pretty_string (f : MoveFunction) : String :=
  if f.module_name = "" then f.function_name
  else f.address ++ "::" ++ f.module_name ++ "::" ++ f.function_name

/-- The `VMTracer` struct from `tracer.rs`: an explicit call stack of
rendered frame names (`tracing`, root first, pushed at the back), the
accumulated folded-stack lines (`trace_data`) and the last observed
remaining-gas checkpoint (`last_remaining_gas`, `None` before the first
event). -/
structure VMTracer where
  tracing : List String
  trace_data : List String
  last_remaining_gas : Option Nat
deriving DecidableEq, Repr

/-- `#[derive(Default)]` for `VMTracer`: empty stack, no lines, no
checkpoint. -/
def VMTracer.default : VMTracer := ⟨[], [], none⟩

/-- `VMTracer::gas_used_since_last_event`: reads the checkpoint (defaulting
to `remaining_gas` itself when it is `None`), stores `remaining_gas` as the
new checkpoint, and returns the `u64` difference `l - remaining_gas`.
Returns the gas delta together with the updated tracer. -/
def VMTracer.gas_used_since_last_event (t : VMTracer) (remaining_gas : Nat) :
    Nat × VMTracer :=
  let l := t.last_remaining_gas.getD remaining_gas
  (sub64 l remaining_gas, { t with last_remaining_gas := some remaining_gas })

/-- The loop in `trace_function_call_start` / `trace_function_call_end` that
renders the `tracing` stack: the root frame is written first, every later
frame is preceded by the separator `"; "`. -/
def renderStack : List String → String
  | [] => ""
  | root :: rest => rest.foldl (fun acc call => acc ++ "; " ++ call) root

/-- `VMTracer::trace_function_call_start`: computes the gas delta, and — only
when the stack is non-empty — appends one folded line rendering the current
(caller's) stack followed by a space and the delta; finally pushes the called
function's `pretty_string` onto the stack. -/
def VMTracer.trace_function_call_start (t : VMTracer) (function : MoveFunction)
    (remaining_gas : Nat) : VMTracer :=
  let p := t.gas_used_since_last_event remaining_gas
  let t1 := p.2
  let t2 :=
    if t1.tracing.isEmpty then t1
    else { t1 with
            trace_data :=
              t1.trace_data ++ [renderStack t1.tracing ++ " " ++ toString p.1] }
  { t2 with tracing := t2.tracing ++ [function.pretty_string] }

/-- `VMTracer::trace_function_call_end`: computes the gas delta,
unconditionally appends one folded line rendering the whole current stack
(`iter().take(len)`, i.e. including the frame about to be popped) followed by
a space and the delta, then pops the top frame with `pop().unwrap()`.
`none` models the `unwrap` panic on an empty stack. -/
def VMTracer.trace_function_call_end (t : VMTracer) (remaining_gas : Nat) :
    Option VMTracer :=
  let p := t.gas_used_since_last_event remaining_gas
  let data := renderStack p.2.tracing ++ " " ++ toString p.1
  match p.2.tracing with
  | [] => none
  | _ :: _ =>
      some { p.2 with
             trace_data := p.2.trace_data ++ [data],
             tracing := p.2.tracing.dropLast }

/-- `VMTracer::get_trace`: the accumulated lines joined by newlines. -/
def VMTracer.get_trace (t : VMTracer) : String :=
  String.intercalate "\n" t.trace_data

/-- One interpreter notification to the tracer: a call start (carrying the
called function and the remaining gas) or a call end (carrying the remaining
gas). -/
inductive TraceEvent where
  | callStart (f : MoveFunction) (gas : Nat)
  | callEnd (gas : Nat)
deriving DecidableEq, Repr

/-- Running a `VMTracer` over a sequence of interpreter notifications;
`none` propagates the pop-on-empty panic of `trace_function_call_end`. -/
def runTracer : VMTracer → List TraceEvent → Option VMTracer
  | t, [] => some t
  | t, TraceEvent.callStart f g :: rest =>
      runTracer (t.trace_function_call_start f g) rest
  | t, TraceEvent.callEnd g :: rest =>
      match t.trace_function_call_end g with
      | none => none
      | some t2 => runTracer t2 rest

/-- `balancedFrom d es` : starting at call depth `d`, the event sequence is
properly paired (no call end at depth 0) and returns to depth 0. -/
def balancedFrom : Nat → List TraceEvent → Bool
  | d, [] => d == 0
  | d, TraceEvent.callStart _ _ :: rest => balancedFrom (d + 1) rest
  | d, TraceEvent.callEnd _ :: rest => d != 0 && balancedFrom (d - 1) rest

/-- A balanced (properly paired) sequence of call-start/call-end events. -/
def balanced (es : List TraceEvent) : Bool := balancedFrom 0 es

/-- Number of call-start events in a sequence (the number of calls `n`). -/
def countStarts : List TraceEvent → Nat
  | [] => 0
  | TraceEvent.callStart _ _ :: rest => countStarts rest + 1
  | TraceEvent.callEnd _ :: rest => countStarts rest

/-- Number of call-end events in a sequence. -/
def countEnds : List TraceEvent → Nat
  | [] => 0
  | TraceEvent.callStart _ _ :: rest => countEnds rest
  | TraceEvent.callEnd _ :: rest => countEnds rest + 1

/-- `emptyStarts d es` : number of call-start events that occur while the
call stack is empty (depth 0), starting from depth `d`. These are exactly
the events for which `trace_function_call_start` emits no line. -/
def emptyStarts : Nat → List TraceEvent → Nat
  | _, [] => 0
  | d, TraceEvent.callStart _ _ :: rest =>
      (if d = 0 then 1 else 0) + emptyStarts (d + 1) rest
  | d, TraceEvent.callEnd _ :: rest => emptyStarts (d - 1) rest

/-- `SpanCallInfo` from `gas_layer.rs`: call metadata captured from a span's
attributes by `SpanAttributesVisitor`. The module address is kept in its
rendered (display) form. -/
structure SpanCallInfo where
  module_address : String
  module_name : String
  function_name : String
deriving DecidableEq, Repr

/-- The free function `write` in `gas_layer.rs`: renders one span's stored
`SpanCallInfo` — when the module name is non-empty it first writes
`address::module::`, then unconditionally writes the function name. -/
def writeFrame (info : SpanCallInfo) : String :=
  (if info.module_name = "" then ""
   else info.module_address ++ "::" ++ info.module_name ++ "::")
  ++ info.function_name

/-- The ancestor-chain rendering loop in `GasLayer::on_event`: the root span
is written first, every later span is preceded by the separator `"; "`. -/
def renderScope : List SpanCallInfo → String
  | [] => ""
  | root :: rest => rest.foldl (fun acc s => acc ++ "; " ++ writeFrame s) (writeFrame root)

/-- The shared output sink (`W: io::Write` behind `Arc<Mutex<W>>`): the lines
written so far, plus a flag modelling a sink whose writes fail. -/
structure Sink where
  lines : List String
  failing : Bool
deriving DecidableEq, Repr

/-- One `writeln!` call on the sink: returns the new sink state and whether
the write succeeded; on a failing sink the line is lost. -/
def Sink.writelnSink (s : Sink) (line : String) : Sink × Bool :=
  if s.failing then (s, false) else ({ s with lines := s.lines ++ [line] }, true)

/-- The mutable state of a `GasLayer`: the shared sink (`out`) and the
remaining-gas checkpoint (`last_remaining_gas`, initialized at
construction). -/
structure GasLayerState where
  out : Sink
  last_remaining_gas : Nat
deriving DecidableEq, Repr

/-- `GasLayer::new`: wraps the writer and stores the initial remaining-gas
checkpoint. -/
def GasLayerState.new (writer : Sink) (remaining_gas : Nat) : GasLayerState :=
  ⟨writer, remaining_gas⟩

/-- `GasLayer::gas_used_since_last_event`: reads the checkpoint, computes the
`u64` difference `checkpoint - remaining_gas`, then stores `remaining_gas`
as the new checkpoint. Returns the delta together with the updated state. -/
def GasLayerState.gas_used_since_last_event (st : GasLayerState)
    (remaining_gas : Nat) : Nat × GasLayerState :=
  (sub64 st.last_remaining_gas remaining_gas,
   { st with last_remaining_gas := remaining_gas })

/-- `GasLayer::enabled` restricted to events: only targets `"start"` and
`"end"` are accepted. -/
def GasLayerState.eventEnabled (target : String) : Bool :=
  target == "start" || target == "end"

/-- `GasLayer::on_event`. The event's owning span is represented by its
root-first ancestor chain of stored `SpanCallInfo` (the span itself last);
`chain = []` means the span id cannot be resolved, and `none` models the
resulting `expect` panic. For a `"start"` event the gas delta is computed
first (updating the checkpoint), then the event is discarded when the span
has no parent; otherwise the chain *excluding* the span itself
(`parent().scope().from_root()`) is rendered and one line is written, its
result discarded. For an `"end"` event the whole chain including the span
itself is rendered and one line is written, its result discarded. Any other
target leaves the state unchanged. -/
def GasLayerState.on_event (st : GasLayerState) (target : String)
    (remaining_gas : Nat) (chain : List SpanCallInfo) : Option GasLayerState :=
  if target = "start" then
    match chain with
    | [] => none
    | [_] => some (st.gas_used_since_last_event remaining_gas).2
    | _ =>
        let p := st.gas_used_since_last_event remaining_gas
        let stack := renderScope chain.dropLast ++ " " ++ toString p.1
        some { p.2 with out := (p.2.out.writelnSink stack).1 }
  else if target = "end" then
    match chain with
    | [] => none
    | _ =>
        let p := st.gas_used_since_last_event remaining_gas
        let stack := renderScope chain ++ " " ++ toString p.1
        some { p.2 with out := (p.2.out.writelnSink stack).1 }
  else some st

/-- The error kinds of `gas_layer.rs`. The wrapped `std::io::Error` source is
modelled by its display string (its own `source()` is taken to be `None`). -/
inductive Kind where
  | CreateFile (source : String) (path : String)
  | FlushFile (source : String)
deriving DecidableEq, Repr

/-- `impl Display for Kind`. -/
def Kind.display : Kind → String
  | Kind.CreateFile _ path => "cannot create output file. path=" ++ path
  | Kind.FlushFile _ => "cannot flush output buffer"

/-- `pub struct Error(pub(crate) Kind)` from `gas_layer.rs`. -/
structure GasError where
  kind : Kind
deriving DecidableEq, Repr

/-- `impl Display for Error` delegates to the wrapped `Kind`. -/
def GasError.display (e : GasError) : String := e.kind.display

/-- `impl std::error::Error for Error`: `source()` returns the wrapped
I/O error in both kinds (modelled as its display string). -/
def GasError.source : GasError → Option String
  | ⟨Kind.CreateFile src _⟩ => some src
  | ⟨Kind.FlushFile src⟩ => some src

/-- The `source()` causal chain of displays walked by `Error::report`,
starting at the error itself: its own display, then the wrapped I/O error's
display (whose own source is `None`). -/
def GasError.displayChain (e : GasError) : List String :=
  e.display :: (match e.source with
                | none => []
                | some s => [s])

/-- The `while let` loop of `Error::report`: one stderr line
`"    {ind}: {error}"` per chain link, with the index increasing from the
given start. -/
def reportLoop : Nat → List String → List String
  | _, [] => []
  | ind, msg :: rest =>
      ("    " ++ toString ind ++ ": " ++ msg) :: reportLoop (ind + 1) rest

/-- `Error::report`: prints the header `Error:` and then walks the
`source()` chain from index 0, one line per link. The returned list is the
sequence of stderr lines. -/
def GasError.report (e : GasError) : List String :=
  "Error:" :: reportLoop 0 e.displayChain

/-- `FlushGuard::flush`. `poisoned` models `self.out.lock()` returning
`Err` (a poisoned mutex), `panicking` models `std::thread::panicking()`,
and `ioErr` models the result of `guard.flush()` on the writer (`some msg`
is an I/O error displaying as `msg`). The outer `none` models the
re-raised panic (`panic!("{}", e)`) when the lock is poisoned and the
thread is not already panicking. -/
def FlushGuard.flushGuardFlush (poisoned panicking : Bool)
    (ioErr : Option String) : Option (Except GasError Unit) :=
  if poisoned then
    if panicking then some (Except.ok ()) else none
  else
    match ioErr with
    | none => some (Except.ok ())
    | some msg => some (Except.error ⟨Kind.FlushFile msg⟩)

/-- `impl Drop for FlushGuard`: matches on the result of `flush()`; an error
is reported via `Error::report` and swallowed. The drop itself cannot fail;
the returned list is the sequence of stderr lines it produces. -/
def FlushGuard.dropGuard (flushResult : Except GasError Unit) : List String :=
  match flushResult with
  | Except.ok _ => []
  | Except.error e => e.report

/-! ### Helper lemmas -/

lemma sub64_of_le {a b : Nat} (ha : a < 2 ^ 64) (hba : b ≤ a) :
    sub64 a b = a - b := by
  have hb : b < 2 ^ 64 := lt_of_le_of_lt hba ha
  unfold sub64
  rw [Nat.mod_eq_of_lt hb]
  have h1 : a + (2 ^ 64 - b) = 2 ^ 64 + (a - b) := by omega
  rw [h1, Nat.add_mod_left, Nat.mod_eq_of_lt (by omega)]

lemma sub64_of_lt {a b : Nat} (hb : b < 2 ^ 64) (hab : a < b) :
    sub64 a b = 2 ^ 64 - (b - a) := by
  unfold sub64
  rw [Nat.mod_eq_of_lt hb]
  have h1 : a + (2 ^ 64 - b) = 2 ^ 64 - (b - a) := by omega
  rw [h1, Nat.mod_eq_of_lt (by omega)]

lemma trace_start_eq (t : VMTracer) (f : MoveFunction) (g : Nat) :
    t.trace_function_call_start f g =
      { tracing := t.tracing ++ [f.pretty_string],
        trace_data := t.trace_data ++
          (if t.tracing.isEmpty then []
           else [renderStack t.tracing ++ " " ++
                   toString (sub64 (t.last_remaining_gas.getD g) g)]),
        last_remaining_gas := some g } := by
  unfold VMTracer.trace_function_call_start VMTracer.gas_used_since_last_event
  by_cases h : t.tracing.isEmpty <;> simp [h]

lemma trace_end_nil (t : VMTracer) (g : Nat) (h : t.tracing = []) :
    t.trace_function_call_end g = none := by
  unfold VMTracer.trace_function_call_end VMTracer.gas_used_since_last_event
  simp [h]

lemma trace_end_cons (t : VMTracer) (g : Nat) (h : t.tracing ≠ []) :
    t.trace_function_call_end g = some
      { tracing := t.tracing.dropLast,
        trace_data := t.trace_data ++
          [renderStack t.tracing ++ " " ++
             toString (sub64 (t.last_remaining_gas.getD g) g)],
        last_remaining_gas := some g } := by
  unfold VMTracer.trace_function_call_end VMTracer.gas_used_since_last_event
  match hm : t.tracing, h with
  | x :: xs, _ => simp [hm]

lemma start_tracing_length (t : VMTracer) (f : MoveFunction) (g : Nat) :
    (t.trace_function_call_start f g).tracing.length = t.tracing.length + 1 := by
  rw [trace_start_eq]
  simp

lemma start_data_length (t : VMTracer) (f : MoveFunction) (g : Nat) :
    (t.trace_function_call_start f g).trace_data.length =
      t.trace_data.length + (if t.tracing.length = 0 then 0 else 1) := by
  rw [trace_start_eq]
  rcases htr : t.tracing with _ | ⟨x, xs⟩ <;> simp [htr]

lemma runTracer_balanced (es : List TraceEvent) :
    ∀ (t : VMTracer), balancedFrom t.tracing.length es = true →
    ∃ t2, runTracer t es = some t2 ∧
      t2.trace_data.length + emptyStarts t.tracing.length es =
        t.trace_data.length + es.length := by
  induction es with
  | nil =>
    intro t _
    exact ⟨t, rfl, by simp [emptyStarts]⟩
  | cons e rest ih =>
    intro t hb
    cases e with
    | callStart f g =>
      simp only [balancedFrom] at hb
      obtain ⟨t2, hrun, hcount⟩ := ih (t.trace_function_call_start f g)
        (by rw [start_tracing_length]; exact hb)
      refine ⟨t2, by simpa [runTracer] using hrun, ?_⟩
      rw [start_tracing_length, start_data_length] at hcount
      simp only [emptyStarts, List.length_cons]
      by_cases h0 : t.tracing.length = 0
      · rw [if_pos h0] at hcount ⊢
        rw [h0] at hcount ⊢
        omega
      · rw [if_neg h0] at hcount ⊢
        omega
    | callEnd g =>
      simp only [balancedFrom, Bool.and_eq_true, bne_iff_ne, ne_eq] at hb
      obtain ⟨hd0, hb2⟩ := hb
      have hne : t.tracing ≠ [] := by
        intro hnil
        exact hd0 (by simp [hnil])
      have hend := trace_end_cons t g hne
      have hlen2 : ((⟨t.tracing.dropLast,
          t.trace_data ++ [renderStack t.tracing ++ " " ++
            toString (sub64 (t.last_remaining_gas.getD g) g)],
          some g⟩ : VMTracer)).tracing.length = t.tracing.length - 1 := by
        simp
      obtain ⟨t2, hrun, hcount⟩ := ih _ (by rw [hlen2]; exact hb2)
      refine ⟨t2, ?_, ?_⟩
      · simp only [runTracer, hend]
        exact hrun
      · simp only [hlen2] at hcount
        simp only [emptyStarts, List.length_cons]
        simp at hcount
        omega

lemma balanced_counts (es : List TraceEvent) :
    ∀ d, balancedFrom d es = true → countStarts es + d = countEnds es := by
  induction es with
  | nil =>
    intro d hb
    simp only [balancedFrom, beq_iff_eq] at hb
    simp [countStarts, countEnds, hb]
  | cons e rest ih =>
    intro d hb
    cases e with
    | callStart f g =>
      have := ih (d + 1) hb
      simp only [countStarts, countEnds]
      omega
    | callEnd g =>
      simp only [balancedFrom, Bool.and_eq_true, bne_iff_ne, ne_eq] at hb
      have := ih (d - 1) hb.2
      simp only [countStarts, countEnds]
      omega

lemma length_eq_counts (es : List TraceEvent) :
    es.length = countStarts es + countEnds es := by
  induction es with
  | nil => rfl
  | cons e rest ih =>
    cases e <;> simp only [List.length_cons, countStarts, countEnds, ih] <;> omega

lemma emptyStarts_pos (es : List TraceEvent) (hb : balanced es = true)
    (hne : es ≠ []) : 1 ≤ emptyStarts 0 es := by
  match es, hne with
  | TraceEvent.callStart f g :: rest, _ =>
      simp [emptyStarts]
  | TraceEvent.callEnd g :: rest, _ =>
      simp [balanced, balancedFrom] at hb

/-! ### Claims -/

/-- The function `A` of the spec's scenario: empty module name. -/
def fnA : MoveFunction := ⟨"", "", "A"⟩

/-- The function `B` of the spec's scenario: empty module name. -/
def fnB : MoveFunction := ⟨"", "", "B"⟩

/-- The spec's scenario: `A()` then `B()` then return-from-`B` then
return-from-`A`, with remaining gas 1000, 940, 900, 850 observed at the four
transitions, run on a fresh tracer. -/
def scenarioC1 : Option VMTracer :=
  (((VMTracer.default.trace_function_call_start fnA 1000).trace_function_call_start
      fnB 940).trace_function_call_end 900).bind
    (fun t => t.trace_function_call_end 850)

/-- C1 (counterexample): on the scenario `A()` → `B()` → return-from-`B` →
return-from-`A` with remaining gas 1000, 940, 900, 850, the tracer does
*not* accumulate the four lines `"A 0"`, `"A; B 60"`, `"A; B 40"`, `"A 50"`
claimed by the spec. -/
theorem scenario_lines_counterexample :
    Option.map VMTracer.trace_data scenarioC1 ≠
      some ["A 0", "A; B 60", "A; B 40", "A 50"] := by
  decide

/-- C1 (amended): on that scenario the tracer accumulates exactly the three
lines `"A 60"`, `"A; B 40"`, `"A 50"` in that order — the start-`A` line is
skipped because the stack is empty, and the start-`B` line renders the
caller's path `"A"` with the delta 60 incurred since start-`A`. -/
theorem scenario_lines :
    Option.map VMTracer.trace_data scenarioC1 = some ["A 60", "A; B 40", "A 50"] := by
  decide

/-- Two sequential top-level calls: `A()` returns, then `C()` is called.
A balanced sequence with two calls. -/
def twoTopLevelCalls : List TraceEvent :=
  [TraceEvent.callStart fnA 1000, TraceEvent.callEnd 990,
   TraceEvent.callStart ⟨"", "", "C"⟩ 980, TraceEvent.callEnd 970]

/-- C2 (counterexample): the balanced sequence `A()`, return, `C()`, return
has `n = 2` calls but accumulates only 2 lines, not `2n − 1 = 3`: the second
top-level call-start also finds an empty stack and is skipped. -/
theorem line_count_counterexample :
    balanced twoTopLevelCalls = true ∧
    countStarts twoTopLevelCalls = 2 ∧
    (runTracer VMTracer.default twoTopLevelCalls).map
        (fun t => t.trace_data.length) = some 2 ∧
    (2 : Nat) ≠ 2 * 2 - 1 := by
  decide

/-- C2 (amended): for every non-empty balanced sequence of call-start /
call-end events run on a fresh tracer, the run succeeds and the number of
accumulated lines is `2n − k`, where `n` is the number of calls and
`k ≥ 1` is the number of call-starts that occur on an empty stack (one per
top-level call); only those call-starts are skipped. -/
theorem balanced_line_count (es : List TraceEvent)
    (hb : balanced es = true) (hne : es ≠ []) :
    ∃ t2, runTracer VMTracer.default es = some t2 ∧
      t2.trace_data.length + emptyStarts 0 es = 2 * countStarts es ∧
      1 ≤ emptyStarts 0 es := by
  obtain ⟨t2, hrun, hcount⟩ := runTracer_balanced es VMTracer.default hb
  refine ⟨t2, hrun, ?_, emptyStarts_pos es hb hne⟩
  have hc := balanced_counts es 0 hb
  have hl := length_eq_counts es
  have h0 : VMTracer.default.tracing.length = 0 := rfl
  have h1 : VMTracer.default.trace_data.length = 0 := rfl
  rw [h0, h1] at hcount
  omega

/-- Witness for `balanced_line_count` at the concrete two-top-level-call
sequence. -/
theorem balanced_line_count_witness :
    ∃ t2, runTracer VMTracer.default twoTopLevelCalls = some t2 ∧
      t2.trace_data.length + emptyStarts 0 twoTopLevelCalls =
        2 * countStarts twoTopLevelCalls ∧
      1 ≤ emptyStarts 0 twoTopLevelCalls :=
  balanced_line_count twoTopLevelCalls (by decide) (by decide)

/-- C5: invoking `trace_function_call_end` on an empty stack is fatal — the
`pop().unwrap()` panics (modelled by `none`) for every gas value. -/
theorem end_on_empty_stack_fatal (t : VMTracer) (g : Nat)
    (h : t.tracing = []) : t.trace_function_call_end g = none :=
  trace_end_nil t g h

/-- Witness for `end_on_empty_stack_fatal` at a fresh tracer and gas 7. -/
theorem end_on_empty_stack_fatal_witness :
    VMTracer.default.tracing = [] ∧
      VMTracer.default.trace_function_call_end 7 = none :=
  ⟨rfl, end_on_empty_stack_fatal VMTracer.default 7 rfl⟩

/-- C3: on a non-empty stack, a call-start emits one line rendering the stack
as it stood before the push (the caller's path, not containing the entered
function) and only then pushes the entered function; a call-end emits one
line rendering the stack including the top frame and only then pops it. -/
theorem emission_before_stack_update (t : VMTracer) (f : MoveFunction)
    (g : Nat) (h : t.tracing ≠ []) :
    ((t.trace_function_call_start f g).trace_data =
        t.trace_data ++ [renderStack t.tracing ++ " " ++
          toString (t.gas_used_since_last_event g).1] ∧
      (t.trace_function_call_start f g).tracing = t.tracing ++ [f.pretty_string]) ∧
    t.trace_function_call_end g = some
      { tracing := t.tracing.dropLast,
        trace_data := t.trace_data ++ [renderStack t.tracing ++ " " ++
          toString (t.gas_used_since_last_event g).1],
        last_remaining_gas := some g } := by
  have hie : t.tracing.isEmpty = false := by
    simpa [List.isEmpty_iff] using h
  refine ⟨⟨?_, ?_⟩, ?_⟩
  · rw [trace_start_eq]
    simp [hie, VMTracer.gas_used_since_last_event]
  · rw [trace_start_eq]
  · rw [trace_end_cons t g h]
    rfl

/-- Witness for `emission_before_stack_update` with stack `["A"]`, callee
`B` in module `m` at address `x`, and remaining gas 5. -/
theorem emission_before_stack_update_witness :
    (VMTracer.mk ["A"] [] (some 12)).tracing ≠ [] ∧
    ((((VMTracer.mk ["A"] [] (some 12)).trace_function_call_start
          ⟨"x", "m", "B"⟩ 5).trace_data =
        [] ++ [renderStack ["A"] ++ " " ++
          toString ((VMTracer.mk ["A"] [] (some 12)).gas_used_since_last_event 5).1] ∧
      ((VMTracer.mk ["A"] [] (some 12)).trace_function_call_start
          ⟨"x", "m", "B"⟩ 5).tracing =
        ["A"] ++ [(⟨"x", "m", "B"⟩ : MoveFunction).pretty_string]) ∧
    (VMTracer.mk ["A"] [] (some 12)).trace_function_call_end 5 = some
      { tracing := (["A"] : List String).dropLast,
        trace_data := [] ++ [renderStack ["A"] ++ " " ++
          toString ((VMTracer.mk ["A"] [] (some 12)).gas_used_since_last_event 5).1],
        last_remaining_gas := some 5 }) :=
  ⟨by decide, emission_before_stack_update (VMTracer.mk ["A"] [] (some 12))
    ⟨"x", "m", "B"⟩ 5 (by decide)⟩

/-- C4: the gas delta of an accepted event with remaining gas `r` is
`checkpoint − r` against the checkpoint left by the immediately preceding
accepted event, the checkpoint becomes `r` after the event, and on the very
first event of a fresh `VMTracer` (checkpoint `None`) the delta is 0. Both
the tracer's and the layer's `gas_used_since_last_event` are covered. -/
theorem gas_delta_against_checkpoint (t1 t2 : VMTracer) (st : GasLayerState)
    (c r : Nat) (hr : r < 2 ^ 64) (hc : c < 2 ^ 64)
    (h1 : t1.last_remaining_gas = none)
    (h2 : t2.last_remaining_gas = some c) (hrc : r ≤ c)
    (hst : st.last_remaining_gas < 2 ^ 64) (hrs : r ≤ st.last_remaining_gas) :
    (t1.gas_used_since_last_event r).1 = 0 ∧
    (t1.gas_used_since_last_event r).2.last_remaining_gas = some r ∧
    (t2.gas_used_since_last_event r).1 = c - r ∧
    (t2.gas_used_since_last_event r).2.last_remaining_gas = some r ∧
    (st.gas_used_since_last_event r).1 = st.last_remaining_gas - r ∧
    (st.gas_used_since_last_event r).2.last_remaining_gas = r := by
  unfold VMTracer.gas_used_since_last_event GasLayerState.gas_used_since_last_event
  refine ⟨?_, rfl, ?_, rfl, ?_, rfl⟩
  · simp only [h1, Option.getD_none]
    rw [sub64_of_le hr le_rfl]
    omega
  · simp only [h2, Option.getD_some]
    exact sub64_of_le hc hrc
  · exact sub64_of_le hst hrs

/-- Witness for `gas_delta_against_checkpoint`: fresh tracer, a tracer with
checkpoint 100, a layer with checkpoint 100, and remaining gas 60. -/
theorem gas_delta_against_checkpoint_witness :
    ((60 : Nat) < 2 ^ 64 ∧ (100 : Nat) < 2 ^ 64) ∧
    ((VMTracer.mk [] [] none).gas_used_since_last_event 60).1 = 0 ∧
    ((VMTracer.mk [] [] none).gas_used_since_last_event 60).2.last_remaining_gas
      = some 60 ∧
    ((VMTracer.mk [] [] (some 100)).gas_used_since_last_event 60).1 = 100 - 60 ∧
    ((VMTracer.mk [] [] (some 100)).gas_used_since_last_event 60).2.last_remaining_gas
      = some 60 ∧
    ((GasLayerState.mk ⟨[], false⟩ 100).gas_used_since_last_event 60).1 =
      (GasLayerState.mk ⟨[], false⟩ 100).last_remaining_gas - 60 ∧
    ((GasLayerState.mk ⟨[], false⟩ 100).gas_used_since_last_event 60).2.last_remaining_gas
      = 60 :=
  ⟨⟨by norm_num, by norm_num⟩,
    gas_delta_against_checkpoint (VMTracer.mk [] [] none)
      (VMTracer.mk [] [] (some 100)) (GasLayerState.mk ⟨[], false⟩ 100)
      100 60 (by norm_num) (by norm_num) rfl rfl (by norm_num)
      (by norm_num) (by norm_num)⟩

/-- C9: both gas-delta functions subtract with unguarded unsigned 64-bit
arithmetic: when the event's remaining gas `r` strictly exceeds the
checkpoint `c`, the subtraction wraps to `2 ^ 64 − (r − c)` (a huge positive
value, not the negative true difference); the delta equals the true
difference `c − r` exactly under the precondition that remaining gas does
not increase. -/
theorem gas_delta_unsigned_underflow (t : VMTracer) (st : GasLayerState)
    (c r : Nat) (hc : c < 2 ^ 64) (hr : r < 2 ^ 64)
    (ht : t.last_remaining_gas = some c) (hs : st.last_remaining_gas = c)
    (hcr : c < r) :
    (t.gas_used_since_last_event r).1 = 2 ^ 64 - (r - c) ∧
    (st.gas_used_since_last_event r).1 = 2 ^ 64 - (r - c) ∧
    0 < (t.gas_used_since_last_event r).1 ∧
    (∀ a b : Nat, a < 2 ^ 64 → b ≤ a → sub64 a b = a - b) := by
  unfold VMTracer.gas_used_since_last_event GasLayerState.gas_used_since_last_event
  simp only [ht, hs, Option.getD_some]
  have hw := sub64_of_lt hr hcr
  refine ⟨hw, hw, ?_, fun a b ha hba => sub64_of_le ha hba⟩
  rw [hw]
  omega

/-- Witness for `gas_delta_unsigned_underflow`: checkpoint 5, remaining gas
10 (gas apparently increased by 5). -/
theorem gas_delta_unsigned_underflow_witness :
    ((5 : Nat) < 2 ^ 64 ∧ (10 : Nat) < 2 ^ 64 ∧ (5 : Nat) < 10) ∧
    ((VMTracer.mk [] [] (some 5)).gas_used_since_last_event 10).1 =
      2 ^ 64 - (10 - 5) ∧
    ((GasLayerState.mk ⟨[], false⟩ 5).gas_used_since_last_event 10).1 =
      2 ^ 64 - (10 - 5) ∧
    0 < ((VMTracer.mk [] [] (some 5)).gas_used_since_last_event 10).1 ∧
    (∀ a b : Nat, a < 2 ^ 64 → b ≤ a → sub64 a b = a - b) := by
  refine ⟨⟨by norm_num, by norm_num, by norm_num⟩, ?_⟩
  exact gas_delta_unsigned_underflow (VMTracer.mk [] [] (some 5))
    (GasLayerState.mk ⟨[], false⟩ 5) 5 10 (by norm_num) (by norm_num)
    rfl rfl (by norm_num)

lemma foldl_render_append (l : List SpanCallInfo) :
    ∀ pre acc : String,
      l.foldl (fun x s => x ++ "; " ++ writeFrame s) (pre ++ acc) =
        pre ++ l.foldl (fun x s => x ++ "; " ++ writeFrame s) acc := by
  induction l with
  | nil => intro pre acc; rfl
  | cons x xs ih =>
    intro pre acc
    simp only [List.foldl_cons]
    rw [String.append_assoc pre acc "; ",
      String.append_assoc pre (acc ++ "; ") (writeFrame x)]
    exact ih pre (acc ++ "; " ++ writeFrame x)

lemma renderScope_cons_cons (a b : SpanCallInfo) (rest : List SpanCallInfo) :
    renderScope (a :: b :: rest) =
      writeFrame a ++ "; " ++ renderScope (b :: rest) := by
  show rest.foldl (fun x s => x ++ "; " ++ writeFrame s)
      ((writeFrame a ++ "; ") ++ writeFrame b) = _
  rw [foldl_render_append rest (writeFrame a ++ "; ") (writeFrame b)]
  rfl

/-- C6: a `"start"` event whose resolved span has no parent (singleton
ancestor chain) writes no line — only the checkpoint advances; an `"end"`
event with any resolved chain writes exactly one line; in particular an
`"end"` event for a parentless span writes the line rendering that span's
own frame. -/
theorem root_start_discarded_end_kept (st : GasLayerState) (g : Nat)
    (s : SpanCallInfo) (chain : List SpanCallInfo)
    (hchain : chain ≠ []) (hok : st.out.failing = false) :
    st.on_event "start" g [s] = some { st with last_remaining_gas := g } ∧
    (∃ st2, st.on_event "end" g chain = some st2 ∧
      st2.out.lines = st.out.lines ++
        [renderScope chain ++ " " ++ toString (sub64 st.last_remaining_gas g)] ∧
      st2.last_remaining_gas = g) ∧
    (st.on_event "end" g [s]).map (fun x => x.out.lines) =
      some (st.out.lines ++
        [writeFrame s ++ " " ++ toString (sub64 st.last_remaining_gas g)]) := by
  obtain ⟨⟨lines, failing⟩, last⟩ := st
  cases failing with
  | true => simp at hok
  | false =>
    refine ⟨rfl, ?_, ?_⟩
    · match chain, hchain with
      | c :: cs, _ =>
          exact ⟨_, rfl, rfl, rfl⟩
    · rfl

/-- Witness for `root_start_discarded_end_kept` at a concrete layer state,
gas 3, the frame `A`, and the two-frame chain `A; B`. -/
theorem root_start_discarded_end_kept_witness :
    (([⟨"", "", "A"⟩, ⟨"", "", "B"⟩] : List SpanCallInfo) ≠ [] ∧
      (Sink.mk [] false).failing = false) ∧
    ((GasLayerState.mk ⟨[], false⟩ 10).on_event "start" 3 [⟨"", "", "A"⟩] =
      some { GasLayerState.mk ⟨[], false⟩ 10 with last_remaining_gas := 3 } ∧
    (∃ st2, (GasLayerState.mk ⟨[], false⟩ 10).on_event "end" 3
          [⟨"", "", "A"⟩, ⟨"", "", "B"⟩] = some st2 ∧
      st2.out.lines = (Sink.mk [] false).lines ++
        [renderScope [⟨"", "", "A"⟩, ⟨"", "", "B"⟩] ++ " " ++
          toString (sub64 (GasLayerState.mk ⟨[], false⟩ 10).last_remaining_gas 3)] ∧
      st2.last_remaining_gas = 3) ∧
    ((GasLayerState.mk ⟨[], false⟩ 10).on_event "end" 3 [⟨"", "", "A"⟩]).map
        (fun x => x.out.lines) =
      some ((Sink.mk [] false).lines ++
        [writeFrame ⟨"", "", "A"⟩ ++ " " ++
          toString (sub64 (GasLayerState.mk ⟨[], false⟩ 10).last_remaining_gas 3)])) :=
  ⟨⟨by decide, rfl⟩,
    root_start_discarded_end_kept (GasLayerState.mk ⟨[], false⟩ 10) 3
      ⟨"", "", "A"⟩ [⟨"", "", "A"⟩, ⟨"", "", "B"⟩] (by decide) rfl⟩

/-- C8: one stored frame renders as `address::module::function` when the
module name is non-empty and as just the function name when it is empty;
adjacent frames of one folded path are separated by the two-character
string `"; "`; and rendering is deterministic — rendering the same frame
sequence twice yields identical output. -/
theorem frame_rendering_format (info a b : SpanCallInfo)
    (rest c : List SpanCallInfo) :
    writeFrame info = (if info.module_name = "" then info.function_name
      else info.module_address ++ "::" ++ info.module_name ++ "::" ++
        info.function_name) ∧
    renderScope (a :: b :: rest) =
      writeFrame a ++ "; " ++ renderScope (b :: rest) ∧
    renderScope c = renderScope c := by
  refine ⟨?_, renderScope_cons_cons a b rest, rfl⟩
  unfold writeFrame
  by_cases h : info.module_name = "" <;> simp [h]

/-- C10: when a write to the shared sink fails, the error is discarded
(`let _ = writeln!(...)`): `on_event` still returns successfully for both
accepted event kinds, the checkpoint still advances, no error is surfaced,
and the folded line is lost. -/
theorem write_error_silently_ignored (st : GasLayerState) (g : Nat)
    (chain : List SpanCallInfo) (a b : SpanCallInfo)
    (rest : List SpanCallInfo) (line : String)
    (hfail : st.out.failing = true) (hchain : chain ≠ []) :
    (∃ st2, st.on_event "end" g chain = some st2 ∧
      st2.out.lines = st.out.lines ∧ st2.out.failing = true ∧
      st2.last_remaining_gas = g) ∧
    (∃ st3, st.on_event "start" g (a :: b :: rest) = some st3 ∧
      st3.out.lines = st.out.lines ∧ st3.last_remaining_gas = g) ∧
    (st.out.writelnSink line).2 = false := by
  obtain ⟨⟨lines, failing⟩, last⟩ := st
  cases failing with
  | false => simp at hfail
  | true =>
    refine ⟨?_, ⟨_, rfl, rfl, rfl⟩, rfl⟩
    match chain, hchain with
    | c :: cs, _ => exact ⟨_, rfl, rfl, rfl, rfl⟩

/-- Witness for `write_error_silently_ignored` at a failing sink holding one
earlier line, gas 4, chains built from frames `A` and `B`. -/
theorem write_error_silently_ignored_witness :
    ((Sink.mk ["x 1"] true).failing = true ∧
      ([⟨"", "", "A"⟩] : List SpanCallInfo) ≠ []) ∧
    ((∃ st2, (GasLayerState.mk ⟨["x 1"], true⟩ 9).on_event "end" 4
          [⟨"", "", "A"⟩] = some st2 ∧
      st2.out.lines = (Sink.mk ["x 1"] true).lines ∧ st2.out.failing = true ∧
      st2.last_remaining_gas = 4) ∧
    (∃ st3, (GasLayerState.mk ⟨["x 1"], true⟩ 9).on_event "start" 4
          (⟨"", "", "A"⟩ :: ⟨"", "", "B"⟩ :: []) = some st3 ∧
      st3.out.lines = (Sink.mk ["x 1"] true).lines ∧
      st3.last_remaining_gas = 4) ∧
    ((Sink.mk ["x 1"] true).writelnSink "y 2").2 = false) :=
  ⟨⟨rfl, by decide⟩,
    write_error_silently_ignored (GasLayerState.mk ⟨["x 1"], true⟩ 9) 4
      [⟨"", "", "A"⟩] ⟨"", "", "A"⟩ ⟨"", "", "B"⟩ [] "y 2" rfl (by decide)⟩

/-- C7: releasing a `FlushGuard` never propagates an error: drop invokes
`flush()` and on failure reports the error's full `source()` chain to the
error stream — a header and then one line `"    {index}: {message}"` per
chain link with the index increasing from 0 — while returning normally; and
`flush()` invoked with a poisoned sink lock while the thread is already
panicking returns success. -/
theorem flush_guard_release_safe (e : GasError) (msg path : String)
    (ioErr : Option String) :
    FlushGuard.dropGuard (Except.error e) = e.report ∧
    FlushGuard.dropGuard (Except.ok ()) = [] ∧
    (GasError.mk (Kind.FlushFile msg)).report =
      ["Error:", "    0: cannot flush output buffer", "    1: " ++ msg] ∧
    (GasError.mk (Kind.CreateFile msg path)).report =
      ["Error:", "    0: cannot create output file. path=" ++ path,
       "    1: " ++ msg] ∧
    FlushGuard.flushGuardFlush true true ioErr = some (Except.ok ()) := by
  refine ⟨rfl, rfl, rfl, rfl, rfl⟩
